import Mathlib

/-!
Verification of the session/authentication lifecycle and the playback-tracking
state machine of a Kodi Crunchyroll addon, against its natural-language
specification.  The Python sources (`resources/lib/api.py`,
`resources/lib/videoplayer.py`, `resources/lib/crunchyroll.py`,
`resources/lib/gui.py`) are shallowly embedded: stateful methods become pure
functions over explicit state records together with effect traces, HTTP
responses become oracle inputs, and Python exceptions become an explicit
error type.
-/

set_option autoImplicit false

namespace Crunchyroll

/-- Python exceptions raised by the embedded code paths. -/
inductive PyExc where
  | loginError (msg : String)
  | crunchyrollError
  | attributeError
  | typeError
  | requestException
  deriving DecidableEq, Repr

/-! ### Session refresh (`API.create_session`, api.py lines 176-286)

State visible to the HTTP-400 handling of `create_session`: the consecutive
retry counter, whether a session file is persisted, and whether the in-memory
`account_data` is non-empty. -/

structure SessionState where
  retry_counter : Nat
  persisted : Bool
  session : Bool
  deriving DecidableEq, Repr

/-- Status of the token-endpoint exchange as seen by `create_session`. -/
inductive TokenStatus where
  | http400
  | http403
  | success
  deriving DecidableEq, Repr

/-- Outcome of one `create_session` call: normal return or a raised exception. -/
inductive SessionOutcome where
  | ok
  | raised (e : PyExc)
  deriving DecidableEq, Repr

/-- Embedding of `API.create_session(action="refresh")` (api.py 226-286).
On HTTP 400 the code increments `retry_counter`, deletes the persisted
session, resets the in-memory `account_data` to empty, and raises
`LoginError` only when the incremented counter exceeds 2.  On HTTP 403 it
raises without clearing.  On success it finalizes and persists the session
and resets the counter to 0 (the index/profile fetches of
`_finalize_session_from_token_response` are irrelevant to the claims and
abstracted into the persisted flag). -/
def create_session_refresh (st : SessionState) (status : TokenStatus) :
    SessionState × SessionOutcome :=
  match status with
  | .http400 =>
    let rc := st.retry_counter + 1
    let st1 : SessionState := { retry_counter := rc, persisted := false, session := false }
    if rc > 2 then
      (st1, .raised (.loginError "Failed to authenticate twice"))
    else
      (st1, .ok)
  | .http403 => (st, .raised (.loginError "Failed to bypass cloudflare"))
  | .success => ({ retry_counter := 0, persisted := true, session := true }, .ok)

/-! ### Device-code activation loop (crunchyroll.py lines 146-273)

The foreground loop observes, each iteration, whether the dialog was
cancelled, whether the expiry timer fired, and the result of a device-token
poll.  We embed one invocation of the loop as a fold over the sequence of
observed iteration events, tracking the consecutive-expiration counter, the
retry-listing flag, and the number of `request_device_code` calls the loop
makes (regenerations). -/

inductive LoopEvent where
  /-- the expiry flag was observed set; the payload records whether the
  subsequent `request_device_code` call would succeed. -/
  | expiry (regenOk : Bool)
  /-- `poll_device_token` returned a token with `access_token`. -/
  | tokenSuccess
  /-- the user cancelled the dialog (Back/ESC) or Kodi aborted. -/
  | cancel
  /-- a poll returned pending; the loop sleeps and iterates. -/
  | pollPending
  deriving DecidableEq, Repr

structure ActivationState where
  expirations : Nat
  showRetryListing : Bool
  userCancelled : Bool
  authenticated : Bool
  deriving DecidableEq, Repr

def ActivationState.init : ActivationState :=
  { expirations := 0, showRetryListing := false, userCancelled := false, authenticated := false }

/-- Embedding of the activation main loop (crunchyroll.py 153-273).  The
second component counts `request_device_code` calls made inside the loop.
On expiry the counter is incremented; reaching 3 sets the retry-listing flag
and breaks out without requesting a new ticket; below 3 a new ticket is
requested and, when that fails, the loop returns without further requests. -/
def activation_loop : ActivationState → Nat → List LoopEvent → ActivationState × Nat
  | st, regens, [] => (st, regens)
  | st, regens, e :: rest =>
    match e with
    | .cancel => ({ st with userCancelled := true }, regens)
    | .tokenSuccess => ({ st with authenticated := true }, regens)
    | .pollPending => activation_loop st regens rest
    | .expiry regenOk =>
      let n := st.expirations + 1
      if n ≥ 3 then
        ({ st with expirations := n, showRetryListing := true }, regens)
      else if regenOk then
        activation_loop { st with expirations := n } (regens + 1) rest
      else
        ({ st with expirations := n }, regens + 1)

/-! ### Playback teardown (`VideoPlayer.finished`, videoplayer.py lines 151-163)

State read by `finished`: the `clearedStream` latch, the `waitForStart`
flag, whether the host player still reports a playing video, the current
player time, and the total stream duration (used by `_safe_playhead`). -/

structure TeardownState where
  clearedStream : Bool
  waitForStart : Bool
  isPlayingVideo : Bool
  playerTime : Int
  totalTime : Nat
  deriving DecidableEq, Repr

/-- Effects of one `finished` call: number of `clear_active_stream`
invocations (stream releases) and of final `update_playhead` emits. -/
structure TeardownEffects where
  releases : Nat
  emits : Nat
  deriving DecidableEq, Repr

/-- Embedding of `VideoPlayer._safe_playhead` (videoplayer.py 349-363):
clamp a position to `[0, total-1]` when the duration is known. -/
def safe_playhead (total : Nat) (seconds : Int) : Int :=
  if seconds < 0 then 0
  else if total > 0 then max 0 (min seconds ((total : Int) - 1))
  else seconds

/-- Embedding of `VideoPlayer.finished` (videoplayer.py 151-163).  The body
runs when `clearedStream` is not yet set or when `forced` is passed; it then
latches `clearedStream`, sends a final playhead update if the player still
reports playing at a clamped position of at least 10 seconds, and calls
`clear_active_stream`. -/
def finished (st : TeardownState) (forced : Bool) : TeardownState × TeardownEffects :=
  if !st.clearedStream || forced then
    let emits : Nat :=
      if st.isPlayingVideo ∧ safe_playhead st.totalTime st.playerTime ≥ 10 then 1 else 0
    ({ st with clearedStream := true, waitForStart := false },
     { releases := 1, emits := emits })
  else
    (st, { releases := 0, emits := 0 })

/-- Embedding of `VideoPlayer._on_stopped` (videoplayer.py 573-579): every
stop/end event finalizes via `finished(forced=True)`. -/
def on_stopped (st : TeardownState) (_ended : Bool) : TeardownState × TeardownEffects :=
  finished st true

/-! ### Skip events (`VideoPlayer.check_skipping`, videoplayer.py lines 638-708)

`skip_events_data` is a dict mapping a segment kind to its window; we embed
it as an association list with unique keys (insertion order preserved, as in
Python).  One invocation of `check_skipping` iterates over a snapshot of the
keys, re-reading the player position each iteration; `_instaskip` seeks the
player to the end of the window, `_ask_to_skip` shows the prompt after which
the key is removed. -/

structure SkipWindow where
  start : Nat
  /-- the `end` field of the skip event (Lean keyword, hence renamed). -/
  stop : Nat
  deriving DecidableEq, Repr

structure SkipState where
  events : List (String × SkipWindow)
  /-- `int(self._player.getTime())` as observed by the loop. -/
  pos : Nat
  deriving DecidableEq, Repr

/-- An action fired by `check_skipping`: an immediate seek-to-end
(`_instaskip`) or the bounded skip prompt (`_ask_to_skip`). -/
inductive SkipFire where
  | insta (ty : String)
  | prompt (ty : String)
  deriving DecidableEq, Repr

/-- Removal of one key from the skip-event dict
(`skip_events_data.pop(skip_type, None)`). -/
def removeKey (ty : String) (l : List (String × SkipWindow)) :
    List (String × SkipWindow) :=
  l.filter (fun p => p.1 ≠ ty)

/-- The loop body of `check_skipping` (videoplayer.py 647-659) over the
snapshot of keys taken at entry.  In the immediate-skip branch the player is
seeked to the window end (changing the position read by later iterations)
and the key is kept; in the ask branch the prompt fires and the key is
removed from the live dict. -/
def check_skipping_go (ask : Bool) :
    List (String × SkipWindow) → SkipState → SkipState × List SkipFire
  | [], st => (st, [])
  | (ty, ev) :: rest, st =>
    if ev.start ≤ st.pos ∧ st.pos < ev.stop then
      if ask then
        ((check_skipping_go ask rest { st with events := removeKey ty st.events }).1,
         .prompt ty ::
           (check_skipping_go ask rest { st with events := removeKey ty st.events }).2)
      else
        ((check_skipping_go ask rest { st with pos := ev.stop }).1,
         .insta ty :: (check_skipping_go ask rest { st with pos := ev.stop }).2)
    else
      check_skipping_go ask rest st

/-- Embedding of `VideoPlayer.check_skipping` (videoplayer.py 638-659):
returns immediately when no skip data is left or the player is not playing,
else iterates over the snapshot `list(skip_events_data)`. -/
def check_skipping (ask : Bool) (playing : Bool) (st : SkipState) :
    SkipState × List SkipFire :=
  if st.events.length = 0 then (st, [])
  else if playing = false then (st, [])
  else check_skipping_go ask st.events st

/-- A sequence of poll ticks: each tick supplies the host-player state
(playing flag and current position, which a user rewind may move back into
an already-skipped window) and runs one `check_skipping` invocation. -/
def run_skips (ask : Bool) : List (Bool × Nat) → SkipState → SkipState × List SkipFire
  | [], st => (st, [])
  | (playing, p) :: rest, st =>
    let r1 := check_skipping ask playing { st with pos := p }
    let r2 := run_skips ask rest r1.1
    (r2.1, r1.2 ++ r2.2)

/-- Number of skip prompts fired for segment kind `ty` in a fire list. -/
def numPrompts (ty : String) : List SkipFire → Nat
  | [] => 0
  | .prompt ty2 :: fs => numPrompts ty fs + (if ty2 = ty then 1 else 0)
  | .insta _ :: fs => numPrompts ty fs

/-! ### Authorized requests (`API.make_request`, api.py lines 515-601)

The pre-send logic refreshes the session only when `account_data` is truthy,
the URL contains `"/cms/"`, the stored expiry parses, and the current time is
past it.  On a 401 response the request sets the stored expiry one second
into the past and re-issues itself once; a second 401 raises `LoginError`.
Time is embedded as absolute seconds (`Int`); the serialized expiry string of
the source is embedded as the parsed instant, with `none` for an
absent/empty expiry. -/

structure ApiState where
  /-- truthiness of `self.account_data`. -/
  hasAccountData : Bool
  /-- `self.account_data.expires` parsed to an absolute instant, `none` when
  absent (the walrus test `if expiration := ...` then skips the check). -/
  expires : Option Int
  deriving DecidableEq, Repr

/-- Observable effects of `make_request`, in order. -/
inductive ReqEvent where
  /-- a `create_session(action="refresh")` call. -/
  | refresh
  /-- the HTTP request going out, with the status it came back with. -/
  | send (status : Nat)
  deriving DecidableEq, Repr

/-- Decide whether `pat` occurs as a contiguous sublist of `l`
(the Python `"/cms/" in url` test). -/
def listStartsWith : List Char → List Char → Bool
  | [], _ => true
  | _ :: _, [] => false
  | p :: ps, c :: cs => p = c && listStartsWith ps cs

def listHasSub (pat : List Char) : List Char → Bool
  | [] => listStartsWith pat []
  | c :: cs => listStartsWith pat (c :: cs) || listHasSub pat cs

def cmsPat : List Char := String.toList "/cms/"

/-- The expiry check and refresh of `make_request` before sending (api.py
529-539).  Returns whether a refresh was performed and the state after it;
on refresh `create_session` recomputes the expiry from the token response,
embedded as the parameter `newExpires`. -/
def cms_gate (newExpires : Int) (st : ApiState) (now : Int) (url : List Char) :
    Bool × ApiState :=
  if st.hasAccountData && listHasSub cmsPat url then
    match st.expires with
    | some exp =>
      if now > exp then (true, { st with expires := some newExpires })
      else (false, st)
    | none => (false, st)
  else (false, st)

/-- Embedding of `API.make_request` (api.py 515-601) against an oracle list
of response statuses for the successive sends.  The CMS gate runs before
each send; a 401 on a retry raises `LoginError`, a first 401 forces the
stored expiry to `now - 1` and re-issues the request; 2xx parses to a normal
return and any other status raises `CrunchyrollError` (via
`get_json_from_response`).  An exhausted oracle stands for the network
failing, surfaced as a request exception. -/
def make_request (newExpires : Int) (st : ApiState) (now : Int) (url : List Char) :
    List Nat → Bool → (Except PyExc Unit × ApiState × List ReqEvent)
  | [], _ => (.error .requestException, st, [])
  | status :: rest, is_retry =>
    let g := cms_gate newExpires st now url
    let pre : List ReqEvent := if g.1 then [.refresh] else []
    if status = 401 then
      if is_retry then
        (.error (.loginError "Request to API failed twice due to authentication issues."),
         g.2, pre ++ [.send 401])
      else
        let st2 : ApiState := { g.2 with expires := some (now - 1) }
        let r := make_request newExpires st2 now url rest true
        (r.1, r.2.1, pre ++ [.send 401] ++ r.2.2)
    else if 200 ≤ status ∧ status < 300 then
      (.ok (), g.2, pre ++ [.send status])
    else
      (.error .crunchyrollError, g.2, pre ++ [.send status])

/-- Number of `create_session(action="refresh")` calls in a request trace. -/
def numRefreshes : List ReqEvent → Nat
  | [] => 0
  | .refresh :: tr => numRefreshes tr + 1
  | .send _ :: tr => numRefreshes tr

/-- Number of outgoing HTTP sends in a request trace. -/
def numSends : List ReqEvent → Nat
  | [] => 0
  | .refresh :: tr => numSends tr
  | .send _ :: tr => numSends tr + 1

/-! ### Playhead sync (`update_playhead`, videoplayer.py lines 801-896)

The module-level `update_playhead` posts the position to the playheads
endpoint.  It is gated by the `sync_playtime` setting and the 10-second
minimum; before posting it preemptively refreshes when less than 60 seconds
of token lifetime remain; a 401 on the POST triggers one refresh and one
retry; any failure is caught, logged and swallowed by the enclosing
handlers. -/

structure PlayheadEnv where
  /-- the `sync_playtime` addon setting equals the string true. -/
  syncEnabled : Bool
  /-- `account_data.expires` parsed to an absolute instant (`none` if unset). -/
  expires : Option Int
  /-- `get_date()` at entry, absolute seconds. -/
  now : Int
  /-- status of the first POST to the playheads endpoint. -/
  post1 : Nat
  /-- whether `create_session(action="refresh")` inside the 401 handler
  returns normally. -/
  refreshOk : Bool
  /-- status of the retried POST. -/
  post2 : Nat
  deriving DecidableEq, Repr

inductive PhEvent where
  | refresh
  | post (status : Nat)
  deriving DecidableEq, Repr

/-- The body of `update_playhead` up to its outermost exception handlers
(videoplayer.py 804-886): outcome of the body plus the trace of refreshes
and POSTs it performs.  The preemptive refresh and the 401-handler refresh
are each wrapped in their own try/except in the source, so a refresh failure
is swallowed there; after a failed 401-handler refresh the retry POST is
skipped and the stale 401 response falls through to `if not r.ok: raise`. -/
def update_playhead_body (env : PlayheadEnv) (playhead : Int) :
    Except PyExc Unit × List PhEvent :=
  if !env.syncEnabled then (.ok (), [])
  else if playhead < 10 then (.ok (), [])
  else
    let pre : List PhEvent :=
      match env.expires with
      | some exp => if exp - env.now < 60 then [.refresh] else []
      | none => []
    if env.post1 = 401 then
      if env.refreshOk then
        let tr := pre ++ [.post 401, .refresh, .post env.post2]
        if 200 ≤ env.post2 ∧ env.post2 < 300 then (.ok (), tr)
        else (.error .crunchyrollError, tr)
      else
        (.error .crunchyrollError, pre ++ [.post 401, .refresh])
    else
      let tr := pre ++ [.post env.post1]
      if 200 ≤ env.post1 ∧ env.post1 < 300 then (.ok (), tr)
      else (.error .crunchyrollError, tr)

/-- Embedding of the module-level `update_playhead` (videoplayer.py
801-896): the outer `except (CrunchyrollError, RequestException)` and
`except Exception` handlers log and swallow every failure of the body, so
the function always returns normally. -/
def update_playhead (env : PlayheadEnv) (playhead : Int) :
    Except PyExc Unit × List PhEvent :=
  match update_playhead_body env playhead with
  | (.error _, tr) => (.ok (), tr)
  | (.ok u, tr) => (.ok u, tr)

/-! ### Position emits (`VideoPlayer._emit_playhead`, videoplayer.py 494-513) -/

structure EmitState where
  lastUpdatePlayhead : Int
  lastKnownTime : Int
  wasPlaying : Bool
  /-- `self._player.getTotalTime()`, for clamping. -/
  totalTime : Nat
  deriving DecidableEq, Repr

/-- Embedding of `VideoPlayer._emit_playhead`: clamps the position, drops
unforced duplicates, gates clamped positions below 10 seconds, and otherwise
hands the position to the network helper `update_playhead`.  The second
component records whether that network helper was invoked. -/
def emit_playhead (st : EmitState) (pos : Int) (force : Bool) : EmitState × Bool :=
  let safe := safe_playhead st.totalTime pos
  if !force && safe = st.lastUpdatePlayhead then
    ({ st with lastKnownTime := safe }, false)
  else if safe < 10 then
    ({ st with lastKnownTime := safe, wasPlaying := true }, false)
  else
    ({ st with lastUpdatePlayhead := safe, lastKnownTime := safe, wasPlaying := true }, true)

/-! ### Stream-slot release (`VideoPlayer.clear_active_stream`,
videoplayer.py lines 710-740)

`G.args.get_arg('episode_id')` and the stream token are Python values tested
for truthiness, so absence is either `None` or an empty string; the
`_stream_data` attribute itself may be `None` (it is, on the
`clear_all_active_streams` path that runs before stream resolution, see
videoplayer.py 102-115 and 792-799). -/

/-- Python truthiness test `not x` for an optional string. -/
def strFalsy : Option String → Bool
  | none => true
  | some s => s = ""

structure ClearStreamEnv where
  episodeId : Option String
  /-- `self._stream_data`; the inner option is its `token` attribute. -/
  streamData : Option (Option String)
  deriving DecidableEq, Repr

/-- Embedding of `VideoPlayer.clear_active_stream`.  The guard evaluates
`not episode_id or not self._stream_data.token` left to right: a falsy
episode id short-circuits; otherwise `self._stream_data.token` is read,
raising `AttributeError` when `_stream_data` is `None`, and a falsy token
returns.  The release loop then calls
`G.api.make_request(method="DELETE", url=..., timeout=10)` — but
`make_request` (api.py 515-524) takes no `timeout` parameter, so the call
raises `TypeError` before any HTTP request goes out, and `TypeError` is not
in the `except (CrunchyrollError, LoginError, RequestException)` tuple, so
it propagates out of the first loop iteration.  The second component counts
DELETE requests actually issued. -/
def clear_active_stream (env : ClearStreamEnv) (_tokenParam : Option String) :
    Except PyExc Unit × Nat :=
  if strFalsy env.episodeId then (.ok (), 0)
  else
    match env.streamData with
    | none => (.error .attributeError, 0)
    | some tok =>
      if strFalsy tok then (.ok (), 0)
      else (.error .typeError, 0)

/-! ### Expiry timestamps (`date_to_str` / `str_to_date`, api.py lines 699-719)

`date_to_str` renders a datetime through the plain format string
`"{}-{}-{}T{}:{}:{}Z"`, i.e. each numeric field in unpadded decimal.
`str_to_date` parses with `datetime.strptime(s, "%Y-%m-%dT%H:%M:%SZ")`:
CPython compiles each directive to a regular expression (`%Y` exactly four
digits; `%m` one of `1[0-2]|0[1-9]|[1-9]`; `%d` `3[01]|[12]\d|0[1-9]|[1-9]`;
`%H` `2[0-3]|[0-1]\d|\d`; `%M` `[0-5]\d|\d`; `%S` `6[0-1]|[0-5]\d|\d`), and
the `datetime` constructor then validates calendar ranges (year 1-9999, day
within the month, second 0-59).  Since every numeric field is delimited by a
non-digit literal, a successful match consumes each maximal digit run with a
single alternative, so a field of the delimited digit string matches exactly
when its length and value are in the directive's range.  Strings are
embedded as `List Char`; a parse or construction error returns `none`. -/

structure DateTime where
  year : Nat
  month : Nat
  day : Nat
  hour : Nat
  minute : Nat
  second : Nat
  deriving DecidableEq, Repr

def isLeap (y : Nat) : Bool :=
  (y % 4 = 0 && !(y % 100 = 0)) || (y % 400 = 0)

def daysInMonth (y m : Nat) : Nat :=
  if m = 2 then (if isLeap y then 29 else 28)
  else if m = 4 ∨ m = 6 ∨ m = 9 ∨ m = 11 then 30
  else 31

/-- Ranges the Python `datetime` constructor accepts (second resolution). -/
def validDate (d : DateTime) : Bool :=
  1 ≤ d.year && d.year ≤ 9999 &&
  1 ≤ d.month && d.month ≤ 12 &&
  1 ≤ d.day && d.day ≤ daysInMonth d.year d.month &&
  d.hour ≤ 23 && d.minute ≤ 59 && d.second ≤ 59

def digitChar (d : Nat) : Char := Char.ofNat (48 + d)

/-- Most-significant-first decimal digits of `n`, with enough fuel. -/
def natCharsAux : Nat → Nat → List Char
  | 0, _ => []
  | fuel + 1, n =>
    if n = 0 then []
    else natCharsAux fuel (n / 10) ++ [digitChar (n % 10)]

/-- Unpadded decimal rendering of `n`, as Python `"{}".format(n)`. -/
def natChars (n : Nat) : List Char :=
  if n = 0 then ['0'] else natCharsAux n n

/-- Embedding of `date_to_str` (api.py 703-708). -/
def date_to_str (d : DateTime) : List Char :=
  natChars d.year ++ '-' ::
  (natChars d.month ++ '-' ::
  (natChars d.day ++ 'T' ::
  (natChars d.hour ++ ':' ::
  (natChars d.minute ++ ':' ::
  (natChars d.second ++ ['Z'])))))

/-- Numeric value of a digit string (digits already validated). -/
def fieldVal (ds : List Char) : Nat :=
  ds.foldl (fun a c => a * 10 + (c.toNat - 48)) 0

/-- Take the leading digit run and require the literal separator after it;
every `strptime` numeric directive needs at least one digit. -/
def splitField (cs : List Char) (sep : Char) : Option (List Char × List Char) :=
  match cs.drop (cs.takeWhile Char.isDigit).length with
  | c :: rest =>
    if c = sep ∧ cs.takeWhile Char.isDigit ≠ [] then
      some (cs.takeWhile Char.isDigit, rest)
    else none
  | [] => none

/-- Embedding of `str_to_date` (api.py 711-719): the `strptime` match for
`"%Y-%m-%dT%H:%M:%SZ"` followed by `datetime` construction; any
`ValueError` along the way is unhandled in the source and surfaces as a
parse failure, embedded as `none`. -/
def str_to_date (cs : List Char) : Option DateTime :=
  match splitField cs '-' with
  | none => none
  | some (ys, r1) =>
    if ys.length = 4 then
      match splitField r1 '-' with
      | none => none
      | some (ms, r2) =>
        if ms.length ≤ 2 ∧ 1 ≤ fieldVal ms ∧ fieldVal ms ≤ 12 then
          match splitField r2 'T' with
          | none => none
          | some (ds, r3) =>
            if ds.length ≤ 2 ∧ 1 ≤ fieldVal ds ∧ fieldVal ds ≤ 31 then
              match splitField r3 ':' with
              | none => none
              | some (hs, r4) =>
                if hs.length ≤ 2 ∧ fieldVal hs ≤ 23 then
                  match splitField r4 ':' with
                  | none => none
                  | some (mins, r5) =>
                    if mins.length ≤ 2 ∧ fieldVal mins ≤ 59 then
                      match splitField r5 'Z' with
                      | none => none
                      | some (ss, r6) =>
                        if r6 = [] ∧ ss.length ≤ 2 ∧ fieldVal ss ≤ 61 then
                          let d : DateTime :=
                            { year := fieldVal ys, month := fieldVal ms,
                              day := fieldVal ds, hour := fieldVal hs,
                              minute := fieldVal mins, second := fieldVal ss }
                          if validDate d then some d else none
                        else none
                    else none
                else none
            else none
        else none
    else none

/-! ## Claim C1: session refresh on HTTP 400 -/

/-- C1, counterexample.  Starting from a fresh session state
(`retry_counter = 0`), a refresh-token exchange returning HTTP 400 twice in
a row does NOT raise on the second failure: `create_session` increments the
counter to 2, which is not `> 2`, and returns normally.  The claimed
"second failure raises LoginError" is false on the code. -/
theorem create_session_second_400_returns_normally :
    (create_session_refresh
      (create_session_refresh ⟨0, true, true⟩ .http400).1 .http400).2
      = SessionOutcome.ok := by
  decide

/-- C1, amended.  Every HTTP 400 on the refresh exchange clears the
persisted session, resets the in-memory session to empty and increments the
retry counter; starting from a reset counter the first two consecutive 400s
return normally (with the session cleared each time) and the THIRD
consecutive 400 raises `LoginError` (counter past the maximum of 2). -/
theorem create_session_400_clears_and_third_raises (st : SessionState)
    (h : st.retry_counter = 0) :
    (∀ st2 : SessionState, (create_session_refresh st2 .http400).1.persisted = false ∧
      (create_session_refresh st2 .http400).1.session = false ∧
      (create_session_refresh st2 .http400).1.retry_counter = st2.retry_counter + 1) ∧
    (create_session_refresh st .http400).2 = .ok ∧
    (create_session_refresh
      (create_session_refresh st .http400).1 .http400).2 = .ok ∧
    (create_session_refresh
      (create_session_refresh
        (create_session_refresh st .http400).1 .http400).1 .http400).2
      = .raised (.loginError "Failed to authenticate twice") := by
  obtain ⟨rc, p, s⟩ := st
  simp only [SessionState.retry_counter] at h
  subst h
  refine ⟨fun st2 => ?_, ?_, ?_, ?_⟩
  · obtain ⟨rc2, p2, s2⟩ := st2
    by_cases h2 : 2 < rc2 + 1 <;> simp [create_session_refresh, h2]
  all_goals simp [create_session_refresh]

/-- C1 witness: the amended theorem evaluated at a concrete fresh state. -/
theorem create_session_400_clears_and_third_raises_witness :
    (create_session_refresh ⟨0, true, true⟩ .http400).2 = .ok ∧
    (create_session_refresh
      (create_session_refresh
        (create_session_refresh ⟨0, true, true⟩ .http400).1 .http400).1 .http400).2
      = .raised (.loginError "Failed to authenticate twice") :=
  ⟨(create_session_400_clears_and_third_raises ⟨0, true, true⟩ rfl).2.1,
   (create_session_400_clears_and_third_raises ⟨0, true, true⟩ rfl).2.2.2⟩

/-! ## Claim C3: teardown idempotence -/

/-- C3, counterexample.  Two stop-triggered teardowns (`_on_stopped`, which
always calls `finished(forced=True)`) each perform a stream release and a
final emit: the second call is not a no-op, so teardown is not idempotent
as claimed. -/
theorem finished_forced_twice_releases_twice :
    (on_stopped ⟨false, true, true, 100, 200⟩ true).2.releases = 1 ∧
    (on_stopped (on_stopped ⟨false, true, true, 100, 200⟩ true).1 true).2.releases = 1 ∧
    (on_stopped (on_stopped ⟨false, true, true, 100, 200⟩ true).1 true).2.emits = 1 := by
  decide

/-- C3, amended.  Teardown is idempotent only for unforced calls: an
unforced `finished` latches `clearedStream`, a repeated unforced call is a
no-op (zero releases and emits), but every forced call — the path taken by
all stop/end events via `_on_stopped` — performs the stream release again
(and the final emit again whenever the player still reports playing at a
clamped position of at least 10 seconds). -/
theorem finished_unforced_idempotent_forced_repeats (st : TeardownState) :
    (finished st false).1.clearedStream = true ∧
    (st.clearedStream = false → (finished st false).2.releases = 1) ∧
    (st.clearedStream = true → finished st false = (st, ⟨0, 0⟩)) ∧
    finished (finished st false).1 false = ((finished st false).1, ⟨0, 0⟩) ∧
    (finished st true).2.releases = 1 ∧
    (st.isPlayingVideo = true → safe_playhead st.totalTime st.playerTime ≥ 10 →
      (finished st true).2.emits = 1) := by
  obtain ⟨c, w, pl, t, tot⟩ := st
  cases c <;> simp [finished] <;> intro h1 h2 <;> simp [h1, h2]

/-- C3 witness: the amended theorem at a concrete already-cleared state and
a concrete playing state. -/
theorem finished_unforced_idempotent_forced_repeats_witness :
    finished ⟨true, false, true, 100, 200⟩ false = (⟨true, false, true, 100, 200⟩, ⟨0, 0⟩) ∧
    (finished ⟨true, false, true, 100, 200⟩ true).2.emits = 1 :=
  ⟨(finished_unforced_idempotent_forced_repeats ⟨true, false, true, 100, 200⟩).2.2.1 rfl,
   (finished_unforced_idempotent_forced_repeats ⟨true, false, true, 100, 200⟩).2.2.2.2.2
     rfl (by decide)⟩

/-! ## Claim C5: bounded device-code regeneration -/

/-- C5.  Three consecutive ticket expirations drive the activation loop to
the exhausted state (the retry listing): the ticket is regenerated after
each of the first two expirations (exactly 2 `request_device_code` calls),
and on the third the loop sets the retry-listing flag and breaks out, so no
further automatic ticket requests happen in that invocation whatever events
would have followed. -/
theorem activation_three_expirations_exhausted (rest : List LoopEvent) :
    activation_loop ActivationState.init 0
        (.expiry true :: .expiry true :: .expiry true :: rest)
      = ({ expirations := 3, showRetryListing := true,
           userCancelled := false, authenticated := false }, 2) := by
  rfl

/-! ## Claim C4: expiry-triggered refresh before authorized requests -/

/-- C4, counterexample.  An authorized request to a URL that does not
contain `"/cms/"` is sent with NO session refresh even though the current
time (200) is past the stored expiry (100): the expiry check of
`make_request` is guarded by the `"/cms/" in url` test, so the claimed
"for every URL" fails. -/
theorem make_request_expired_noncms_no_refresh :
    make_request 1000 ⟨true, some 100⟩ 200
        (String.toList "https://www.crunchyroll.com/content/v2/abc/playheads")
        [200] false
      = (.ok (), ⟨true, some 100⟩, [.send 200]) := by
  rfl

/-- C4, amended.  A `make_request` issued past the stored expiry triggers
exactly one session refresh before the send only when the URL contains
`"/cms/"` (and `account_data` is truthy); for all other URLs the request is
sent without any refresh. -/
theorem make_request_refresh_only_for_cms (acct : Bool) (e now newExp : Int)
    (url : List Char) (h : now > e) :
    (listHasSub cmsPat url = true →
      make_request newExp ⟨true, some e⟩ now url [200] false
        = (.ok (), ⟨true, some newExp⟩, [.refresh, .send 200])) ∧
    (listHasSub cmsPat url = false →
      make_request newExp ⟨acct, some e⟩ now url [200] false
        = (.ok (), ⟨acct, some e⟩, [.send 200])) := by
  constructor <;> intro hc <;> simp [make_request, cms_gate, hc, h]

/-- C4 witness: the amended theorem at a concrete expired session, for a
CMS URL. -/
theorem make_request_refresh_only_for_cms_witness :
    make_request 1000 ⟨true, some 100⟩ 200
        (String.toList "https://beta-api.crunchyroll.com/cms/v2/x/episodes")
        [200] false
      = (.ok (), ⟨true, some 1000⟩, [.refresh, .send 200]) :=
  (make_request_refresh_only_for_cms true 100 200 1000
    (String.toList "https://beta-api.crunchyroll.com/cms/v2/x/episodes")
    (by decide)).1 (by decide)

/-! ## Claim C6: 401 retry-once policy of make_request -/

/-- C6, counterexample.  For a URL that does not contain `"/cms/"`, the 401
retry does NOT trigger any session refresh: the request is simply re-issued
with the same stale credentials (only the stored expiry is forced to
`now - 1`), and the second 401 raises `LoginError`.  The claimed
"(which triggers a refresh)" fails on the code. -/
theorem make_request_401_retry_without_refresh :
    make_request 1000 ⟨true, some 500⟩ 200
        (String.toList "https://www.crunchyroll.com/content/v2/abc/playheads")
        [401, 401] false
      = (.error (.loginError "Request to API failed twice due to authentication issues."),
         ⟨true, some 199⟩, [.send 401, .send 401]) := by
  rfl

/-- C6, amended.  On a first HTTP 401 `make_request` retries exactly once
(two sends total) after forcing the stored expiry into the past; the
re-issued request triggers exactly one refresh when `account_data` is
truthy and the URL contains `"/cms/"`, and no refresh otherwise; a second
401 raises `LoginError` instead of retrying again, while a 200 on the retry
returns normally. -/
theorem make_request_401_policy (acct : Bool) (e0 now newExp : Int)
    (url : List Char) (s2 : Nat) (hnotexp : now ≤ e0) (hs2 : s2 = 200 ∨ s2 = 401) :
    numSends (make_request newExp ⟨acct, some e0⟩ now url [401, s2] false).2.2 = 2 ∧
    numRefreshes (make_request newExp ⟨acct, some e0⟩ now url [401, s2] false).2.2
      = (if acct && listHasSub cmsPat url then 1 else 0) ∧
    ((acct && listHasSub cmsPat url) = false →
      (make_request newExp ⟨acct, some e0⟩ now url [401, s2] false).2.1.expires
        = some (now - 1)) ∧
    (s2 = 401 →
      (make_request newExp ⟨acct, some e0⟩ now url [401, s2] false).1
        = .error (.loginError "Request to API failed twice due to authentication issues.")) ∧
    (s2 = 200 →
      (make_request newExp ⟨acct, some e0⟩ now url [401, s2] false).1 = .ok ()) := by
  have h1 : ¬ (now > e0) := by omega
  have h2 : now > now - 1 := by omega
  rcases hs2 with rfl | rfl <;>
    cases hb : acct && listHasSub cmsPat url <;>
      simp [make_request, cms_gate, hb, h1, h2, numSends, numRefreshes]

/-- C6 witness: the amended theorem at a concrete CMS URL with a double
401. -/
theorem make_request_401_policy_witness :
    numSends (make_request 1000 ⟨true, some 300⟩ 200
        (String.toList "https://beta-api.crunchyroll.com/cms/v2/x/episodes")
        [401, 401] false).2.2 = 2 ∧
    (make_request 1000 ⟨true, some 300⟩ 200
        (String.toList "https://beta-api.crunchyroll.com/cms/v2/x/episodes")
        [401, 401] false).1
      = .error (.loginError "Request to API failed twice due to authentication issues.") :=
  ⟨(make_request_401_policy true 300 200 1000
      (String.toList "https://beta-api.crunchyroll.com/cms/v2/x/episodes")
      401 (by decide) (Or.inr rfl)).1,
   (make_request_401_policy true 300 200 1000
      (String.toList "https://beta-api.crunchyroll.com/cms/v2/x/episodes")
      401 (by decide) (Or.inr rfl)).2.2.2.1 rfl⟩

/-! ## Claim C7: playhead 401 refresh-and-retry, swallowed -/

/-- C7.  When the playhead POST returns 401 (and no preemptive refresh was
due, i.e. at least 60 seconds of token lifetime remained), `update_playhead`
performs exactly one silent refresh followed by exactly one retry of the
POST — whatever the retry's status, including another 401 — and in all
cases (second conjunct, for every environment) returns normally: no
exception ever propagates to the caller. -/
theorem update_playhead_401_refresh_retry_swallowed (env : PlayheadEnv) (ph exp : Int)
    (hsync : env.syncEnabled = true) (hph : 10 ≤ ph)
    (hexp : env.expires = some exp) (hrem : 60 ≤ exp - env.now)
    (h401 : env.post1 = 401) (href : env.refreshOk = true) :
    ((update_playhead env ph).2 = [.post 401, .refresh, .post env.post2] ∧
     (update_playhead env ph).1 = .ok ()) ∧
    ∀ (env2 : PlayheadEnv) (ph2 : Int), (update_playhead env2 ph2).1 = .ok () := by
  have hlt : ¬ (ph < 10) := by omega
  have hlt2 : ¬ (exp - env.now < 60) := by omega
  constructor
  · by_cases hc : 200 ≤ env.post2 ∧ env.post2 < 300 <;>
      simp [update_playhead, update_playhead_body, hsync, hexp, h401, href, hlt, hlt2, hc]
  · intro env2 ph2
    rcases h : update_playhead_body env2 ph2 with ⟨out, tr⟩
    cases out <;> simp [update_playhead, h]

/-- C7 witness: a 401 on the playhead POST with a healthy token and a
successful refresh gives exactly the trace POST-refresh-POST. -/
theorem update_playhead_401_refresh_retry_swallowed_witness :
    (update_playhead ⟨true, some 1000, 0, 401, true, 200⟩ 42).2
      = [.post 401, .refresh, .post 200] :=
  ((update_playhead_401_refresh_retry_swallowed ⟨true, some 1000, 0, 401, true, 200⟩
    42 1000 rfl (by decide) rfl (by decide) rfl rfl).1).1

/-! ## Claim C8: no network call below 10 seconds -/

/-- C8.  A position emit whose clamped value is below 10 seconds never
reaches the network: `_emit_playhead` returns before invoking the network
helper, for every state and for both forced and unforced emits; and
independently the module-level `update_playhead` performs no refresh and no
POST at all for any playhead below 10. -/
theorem emit_below_ten_no_network (st : EmitState) (pos : Int) (force : Bool)
    (h : safe_playhead st.totalTime pos < 10) :
    (emit_playhead st pos force).2 = false ∧
    ∀ (env : PlayheadEnv) (ph : Int), ph < 10 → (update_playhead env ph).2 = [] := by
  constructor
  · simp only [emit_playhead]
    split
    · rfl
    · simp [h]
  · intro env ph hph
    cases hs : env.syncEnabled <;>
      simp [update_playhead, update_playhead_body, hs, hph]

/-- C8 witness: a forced emit at 5 seconds does not invoke the network
helper. -/
theorem emit_below_ten_no_network_witness :
    (emit_playhead ⟨0, 0, false, 200⟩ 5 true).2 = false :=
  (emit_below_ten_no_network ⟨0, 0, false, 200⟩ 5 true (by decide)).1

/-! ## Claim C10: stream-release short-circuit and bounded retry -/

/-- C10.  Evaluation of the code at the failing inputs.  With a truthy
episode id and a truthy stream token, `clear_active_stream` raises
`TypeError` — `make_request` takes no `timeout` keyword — before any DELETE
goes out; on the pre-resolution cleanup path, where `_stream_data` is
`None`, it raises `AttributeError` instead of short-circuiting.  A falsy
episode id does short-circuit as claimed, and (last conjunct) no invocation
whatsoever ever issues a stream-release DELETE request, against the
function's own docstring and retry comment. -/
theorem clear_active_stream_never_deletes_and_raises :
    clear_active_stream ⟨some "GRDKJZ81Y", some (some "tok")⟩ (some "tok")
      = (.error .typeError, 0) ∧
    clear_active_stream ⟨some "GRDKJZ81Y", none⟩ (some "tok")
      = (.error .attributeError, 0) ∧
    clear_active_stream ⟨none, some (some "tok")⟩ none = (.ok (), 0) ∧
    (∀ (env : ClearStreamEnv) (tokenParam : Option String),
      (clear_active_stream env tokenParam).2 = 0) := by
  refine ⟨by rfl, by rfl, by rfl, ?_⟩
  intro env tokenParam
  obtain ⟨ep, sd⟩ := env
  cases he : strFalsy ep
  · cases sd with
    | none => simp [clear_active_stream, he]
    | some tok => cases ht : strFalsy tok <;> simp [clear_active_stream, he, ht]
  · simp [clear_active_stream, he]

/-! ## Claim C2: skip segments fire at most once

Supporting lemmas about `check_skipping_go`: the live event map only ever
shrinks, fires only name keys present in the snapshot, a fired prompt
removes its key, and with unique keys a prompt fires at most once per
invocation. -/

theorem numPrompts_append (ty : String) (l1 l2 : List SkipFire) :
    numPrompts ty (l1 ++ l2) = numPrompts ty l1 + numPrompts ty l2 := by
  induction l1 with
  | nil => simp [numPrompts]
  | cons f fs ih =>
    cases f with
    | insta ty2 => simp [numPrompts, ih]
    | prompt ty2 =>
      simp [numPrompts, ih]
      omega

theorem numPrompts_eq_zero_iff (ty : String) (fs : List SkipFire) :
    numPrompts ty fs = 0 ↔ SkipFire.prompt ty ∉ fs := by
  induction fs with
  | nil => simp [numPrompts]
  | cons f fs ih =>
    cases f with
    | insta ty2 => simp [numPrompts, ih]
    | prompt ty2 =>
      by_cases h : ty2 = ty
      · subst h; simp [numPrompts]
      · simp [numPrompts, h, ih, Ne.symm h]

theorem check_skipping_go_cons_ask (ty2 : String) (ev : SkipWindow)
    (rest : List (String × SkipWindow)) (st : SkipState)
    (hw : ev.start ≤ st.pos ∧ st.pos < ev.stop) :
    check_skipping_go true ((ty2, ev) :: rest) st
      = ((check_skipping_go true rest { st with events := removeKey ty2 st.events }).1,
         .prompt ty2 ::
           (check_skipping_go true rest { st with events := removeKey ty2 st.events }).2) := by
  simp [check_skipping_go, hw]

theorem check_skipping_go_cons_insta (ty2 : String) (ev : SkipWindow)
    (rest : List (String × SkipWindow)) (st : SkipState)
    (hw : ev.start ≤ st.pos ∧ st.pos < ev.stop) :
    check_skipping_go false ((ty2, ev) :: rest) st
      = ((check_skipping_go false rest { st with pos := ev.stop }).1,
         .insta ty2 :: (check_skipping_go false rest { st with pos := ev.stop }).2) := by
  simp [check_skipping_go, hw]

theorem check_skipping_go_cons_out (ask : Bool) (ty2 : String) (ev : SkipWindow)
    (rest : List (String × SkipWindow)) (st : SkipState)
    (hw : ¬ (ev.start ≤ st.pos ∧ st.pos < ev.stop)) :
    check_skipping_go ask ((ty2, ev) :: rest) st = check_skipping_go ask rest st := by
  simp [check_skipping_go, hw]

theorem check_skipping_go_sublist (ask : Bool) (snap : List (String × SkipWindow)) :
    ∀ st : SkipState, List.Sublist (check_skipping_go ask snap st).1.events st.events := by
  induction snap with
  | nil => intro st; exact List.Sublist.refl _
  | cons hd rest ih =>
    intro st
    obtain ⟨ty2, ev⟩ := hd
    by_cases hw : ev.start ≤ st.pos ∧ st.pos < ev.stop
    · cases ask
      · rw [check_skipping_go_cons_insta ty2 ev rest st hw]
        exact ih _
      · rw [check_skipping_go_cons_ask ty2 ev rest st hw]
        exact (ih _).trans (List.filter_sublist _)
    · rw [check_skipping_go_cons_out ask ty2 ev rest st hw]
      exact ih _

theorem key_not_mem_removeKey (l : List (String × SkipWindow)) (ty : String) :
    ty ∉ (removeKey ty l).map Prod.fst := by
  intro h
  rcases List.mem_map.mp h with ⟨p, hp, hkey⟩
  have hpf := List.of_mem_filter hp
  simp only [decide_eq_true_eq] at hpf
  exact hpf hkey

theorem check_skipping_go_prompt_mem (ask : Bool) (ty : String)
    (snap : List (String × SkipWindow)) :
    ∀ st : SkipState, SkipFire.prompt ty ∈ (check_skipping_go ask snap st).2 →
      ty ∈ snap.map Prod.fst := by
  induction snap with
  | nil => intro st h; simp [check_skipping_go] at h
  | cons hd rest ih =>
    intro st h
    obtain ⟨ty2, ev⟩ := hd
    simp only [List.map_cons, List.mem_cons]
    by_cases hw : ev.start ≤ st.pos ∧ st.pos < ev.stop
    · cases ask
      · rw [check_skipping_go_cons_insta ty2 ev rest st hw] at h
        rcases List.mem_cons.mp h with heq | htail
        · exact absurd heq (by simp)
        · exact Or.inr (ih _ htail)
      · rw [check_skipping_go_cons_ask ty2 ev rest st hw] at h
        rcases List.mem_cons.mp h with heq | htail
        · exact Or.inl (SkipFire.prompt.inj heq)
        · exact Or.inr (ih _ htail)
    · rw [check_skipping_go_cons_out ask ty2 ev rest st hw] at h
      exact Or.inr (ih _ h)

theorem check_skipping_go_prompt_removed (ty : String)
    (snap : List (String × SkipWindow)) :
    ∀ st : SkipState, SkipFire.prompt ty ∈ (check_skipping_go true snap st).2 →
      ty ∉ (check_skipping_go true snap st).1.events.map Prod.fst := by
  induction snap with
  | nil => intro st h; simp [check_skipping_go] at h
  | cons hd rest ih =>
    intro st h
    obtain ⟨ty2, ev⟩ := hd
    by_cases hw : ev.start ≤ st.pos ∧ st.pos < ev.stop
    · rw [check_skipping_go_cons_ask ty2 ev rest st hw] at h ⊢
      rcases List.mem_cons.mp h with heq | htail
      · have hty : ty = ty2 := SkipFire.prompt.inj heq
        subst hty
        intro hmem
        have hsub := (check_skipping_go_sublist true rest
          { st with events := removeKey ty st.events }).map Prod.fst
        exact key_not_mem_removeKey st.events ty (hsub.subset hmem)
      · exact ih _ htail
    · rw [check_skipping_go_cons_out true ty2 ev rest st hw] at h ⊢
      exact ih _ h

theorem check_skipping_go_prompt_count (ty : String)
    (snap : List (String × SkipWindow)) :
    ∀ st : SkipState, (snap.map Prod.fst).Nodup →
      numPrompts ty (check_skipping_go true snap st).2 ≤ 1 := by
  induction snap with
  | nil => intro st _; simp [check_skipping_go, numPrompts]
  | cons hd rest ih =>
    intro st hnd
    obtain ⟨ty2, ev⟩ := hd
    simp only [List.map_cons, List.nodup_cons] at hnd
    by_cases hw : ev.start ≤ st.pos ∧ st.pos < ev.stop
    · rw [check_skipping_go_cons_ask ty2 ev rest st hw]
      show numPrompts ty (SkipFire.prompt ty2 ::
        (check_skipping_go true rest { st with events := removeKey ty2 st.events }).2) ≤ 1
      simp only [numPrompts]
      by_cases hty : ty2 = ty
      · subst hty
        have hzero : numPrompts ty2 (check_skipping_go true rest
            { st with events := removeKey ty2 st.events }).2 = 0 := by
          rw [numPrompts_eq_zero_iff]
          intro hmem
          exact hnd.1 (check_skipping_go_prompt_mem true ty2 rest
            { st with events := removeKey ty2 st.events } hmem)
        simp [hzero]
      · simp only [hty, if_false]
        have := ih { st with events := removeKey ty2 st.events } hnd.2
        omega
    · rw [check_skipping_go_cons_out true ty2 ev rest st hw]
      exact ih _ hnd.2

theorem check_skipping_sublist (ask playing : Bool) (st : SkipState) :
    List.Sublist (check_skipping ask playing st).1.events st.events := by
  unfold check_skipping
  split
  · exact List.Sublist.refl _
  · split
    · exact List.Sublist.refl _
    · exact check_skipping_go_sublist ask st.events st

theorem check_skipping_prompt_mem (ask playing : Bool) (ty : String) (st : SkipState)
    (h : SkipFire.prompt ty ∈ (check_skipping ask playing st).2) :
    ty ∈ st.events.map Prod.fst := by
  unfold check_skipping at h
  split at h
  · simp at h
  · split at h
    · simp at h
    · exact check_skipping_go_prompt_mem ask ty st.events st h

theorem check_skipping_prompt_removed (playing : Bool) (ty : String) (st : SkipState)
    (h : SkipFire.prompt ty ∈ (check_skipping true playing st).2) :
    ty ∉ (check_skipping true playing st).1.events.map Prod.fst := by
  by_cases h0 : st.events.length = 0
  · simp [check_skipping, h0] at h
  · by_cases hp : playing = false
    · simp [check_skipping, h0, hp] at h
    · simp only [check_skipping, if_neg h0, if_neg hp] at h ⊢
      exact check_skipping_go_prompt_removed ty st.events st h

theorem check_skipping_prompt_count (playing : Bool) (ty : String) (st : SkipState)
    (hnd : (st.events.map Prod.fst).Nodup) :
    numPrompts ty (check_skipping true playing st).2 ≤ 1 := by
  unfold check_skipping
  split
  · simp [numPrompts]
  · split
    · simp [numPrompts]
    · exact check_skipping_go_prompt_count ty st.events st hnd

theorem run_skips_no_key_no_prompt (ty : String) (ticks : List (Bool × Nat)) :
    ∀ st : SkipState, ty ∉ st.events.map Prod.fst →
      numPrompts ty (run_skips true ticks st).2 = 0 := by
  induction ticks with
  | nil => intro st _; simp [run_skips, numPrompts]
  | cons tick rest ih =>
    intro st h
    obtain ⟨playing, p⟩ := tick
    simp only [run_skips]
    rw [numPrompts_append]
    have h1 : numPrompts ty (check_skipping true playing { st with pos := p }).2 = 0 := by
      rw [numPrompts_eq_zero_iff]
      intro hmem
      exact h (check_skipping_prompt_mem true playing ty { st with pos := p } hmem)
    have h2 : ty ∉ ((check_skipping true playing { st with pos := p }).1.events.map Prod.fst) := by
      intro hmem
      exact h (((check_skipping_sublist true playing
        { st with pos := p }).map Prod.fst).subset hmem)
    rw [h1, ih _ h2]

theorem run_skips_prompt_at_most_once (ty : String) (ticks : List (Bool × Nat)) :
    ∀ st : SkipState, (st.events.map Prod.fst).Nodup →
      numPrompts ty (run_skips true ticks st).2 ≤ 1 := by
  induction ticks with
  | nil => intro st _; simp [run_skips, numPrompts]
  | cons tick rest ih =>
    intro st hnd
    obtain ⟨playing, p⟩ := tick
    simp only [run_skips]
    rw [numPrompts_append]
    have hc1 := check_skipping_prompt_count playing ty { st with pos := p } hnd
    have hnd2 : ((check_skipping true playing { st with pos := p }).1.events.map
        Prod.fst).Nodup :=
      List.Nodup.sublist ((check_skipping_sublist true playing
        { st with pos := p }).map Prod.fst) hnd
    by_cases hz : numPrompts ty (check_skipping true playing { st with pos := p }).2 = 0
    · rw [hz]
      have := ih _ hnd2
      omega
    · have hmem : SkipFire.prompt ty ∈ (check_skipping true playing { st with pos := p }).2 := by
        by_contra hmm
        exact hz ((numPrompts_eq_zero_iff ty _).mpr hmm)
      have hrem := check_skipping_prompt_removed playing ty { st with pos := p } hmem
      rw [run_skips_no_key_no_prompt ty rest _ hrem]
      omega

theorem check_skipping_go_false_events (snap : List (String × SkipWindow)) :
    ∀ st : SkipState, (check_skipping_go false snap st).1.events = st.events := by
  induction snap with
  | nil => intro st; rfl
  | cons hd rest ih =>
    intro st
    obtain ⟨ty2, ev⟩ := hd
    simp only [check_skipping_go]
    split
    · exact ih _
    · exact ih _

/-- C2, counterexample.  In immediate-skip mode (ask-before-skipping off),
the segment is NOT consumed: with window `[80, 95)`, entering the window
fires the jump, and after a rewind back to 85 the very same segment fires
again on the next invocation — the claimed "fires at most once per playback
session, consumed after triggering" is false on the code. -/
theorem check_skipping_insta_refires_after_rewind :
    (run_skips false [(true, 85), (true, 85)] ⟨[("intro", ⟨80, 95⟩)], 0⟩).2
      = [.insta "intro", .insta "intro"] := by
  decide

/-- C2, amended.  Only the prompt path consumes its segment: with
"ask before skipping" set, each named segment (keys unique, as in the
source dict) fires its prompt at most once across any sequence of playback
ticks, however the position moves; with "ask before skipping" unset, the
immediate jump never removes anything from the skip-event map (so the jump
fires again whenever the position re-enters the window, as the
counterexample shows). -/
theorem skip_segments_amended :
    (∀ (playing : Bool) (st : SkipState),
      (check_skipping false playing st).1.events = st.events) ∧
    (∀ (ty : String) (ticks : List (Bool × Nat)) (st : SkipState),
      (st.events.map Prod.fst).Nodup →
      numPrompts ty (run_skips true ticks st).2 ≤ 1) := by
  constructor
  · intro playing st
    unfold check_skipping
    split
    · rfl
    · split
      · rfl
      · exact check_skipping_go_false_events st.events st
  · intro ty ticks st hnd
    exact run_skips_prompt_at_most_once ty ticks st hnd

/-- C2 witness: the amended theorem at the reference window, with two ticks
that both observe a position inside the window. -/
theorem skip_segments_amended_witness :
    numPrompts "intro"
      (run_skips true [(true, 85), (true, 85)] ⟨[("intro", ⟨80, 95⟩)], 0⟩).2 ≤ 1 :=
  skip_segments_amended.2 "intro" [(true, 85), (true, 85)]
    ⟨[("intro", ⟨80, 95⟩)], 0⟩ (by decide)

/-! ## Claim C9: expiry timestamp round-trip

Decimal-rendering lemmas: the characters produced by `natChars` are digits,
their value parses back, and the length is governed by powers of ten. -/

theorem toNat_digitChar (d : Nat) (h : d < 10) : (digitChar d).toNat = 48 + d := by
  interval_cases d <;> decide

theorem isDigit_digitChar (d : Nat) (h : d < 10) : (digitChar d).isDigit = true := by
  interval_cases d <;> decide

theorem natCharsAux_all_digits (fuel : Nat) :
    ∀ n, ∀ c ∈ natCharsAux fuel n, c.isDigit = true := by
  induction fuel with
  | zero => intro n c hc; simp [natCharsAux] at hc
  | succ fuel ih =>
    intro n c hc
    by_cases hn : n = 0
    · simp [natCharsAux, hn] at hc
    · simp only [natCharsAux, if_neg hn] at hc
      rcases List.mem_append.mp hc with h1 | h2
      · exact ih _ c h1
      · have hc2 : c = digitChar (n % 10) := by simpa using h2
        subst hc2
        exact isDigit_digitChar _ (Nat.mod_lt _ (by norm_num))

theorem natChars_all_digits (n : Nat) : ∀ c ∈ natChars n, c.isDigit = true := by
  by_cases hn : n = 0
  · subst hn
    intro c hc
    simp [natChars] at hc
    subst hc
    decide
  · intro c hc
    simp only [natChars, if_neg hn] at hc
    exact natCharsAux_all_digits n n c hc

theorem natChars_ne_nil (n : Nat) : natChars n ≠ [] := by
  by_cases hn : n = 0
  · subst hn; simp [natChars]
  · simp only [natChars, if_neg hn]
    cases n with
    | zero => exact absurd rfl hn
    | succ m => simp [natCharsAux]

theorem fieldVal_append_digit (l : List Char) (c : Char) :
    fieldVal (l ++ [c]) = fieldVal l * 10 + (c.toNat - 48) := by
  simp [fieldVal, List.foldl_append]

theorem natCharsAux_val (fuel : Nat) :
    ∀ n, n ≤ fuel → fieldVal (natCharsAux fuel n) = n := by
  induction fuel with
  | zero =>
    intro n hn
    interval_cases n
    simp [natCharsAux, fieldVal]
  | succ fuel ih =>
    intro n hn
    by_cases h0 : n = 0
    · subst h0; simp [natCharsAux, fieldVal]
    · simp only [natCharsAux, if_neg h0]
      rw [fieldVal_append_digit, ih (n / 10) (by omega),
        toNat_digitChar _ (Nat.mod_lt _ (by norm_num))]
      omega

theorem fieldVal_natChars (n : Nat) : fieldVal (natChars n) = n := by
  by_cases h0 : n = 0
  · subst h0; decide
  · simp only [natChars, if_neg h0]
    exact natCharsAux_val n n le_rfl

theorem natCharsAux_len (fuel : Nat) :
    ∀ n k, n ≤ fuel → ((natCharsAux fuel n).length ≤ k ↔ n < 10 ^ k) := by
  induction fuel with
  | zero =>
    intro n k hn
    interval_cases n
    simp [natCharsAux]
  | succ fuel ih =>
    intro n k hn
    by_cases h0 : n = 0
    · subst h0
      simp [natCharsAux]
    · simp only [natCharsAux, if_neg h0, List.length_append, List.length_cons,
        List.length_nil]
      cases k with
      | zero =>
        rw [pow_zero]
        constructor
        · intro h; omega
        · intro h; omega
      | succ k2 =>
        have hiff := ih (n / 10) k2 (by omega)
        rw [pow_succ]
        constructor
        · intro h
          have hlen : (natCharsAux fuel (n / 10)).length ≤ k2 := by omega
          have := hiff.mp hlen
          omega
        · intro h
          have h2 : n / 10 < 10 ^ k2 := by omega
          have := hiff.mpr h2
          omega

theorem natChars_len_le (n k : Nat) (hk : 1 ≤ k) :
    ((natChars n).length ≤ k ↔ n < 10 ^ k) := by
  by_cases h0 : n = 0
  · subst h0
    simp only [natChars, if_pos rfl, List.length_singleton]
    exact iff_of_true hk (pow_pos (by norm_num) k)
  · simp only [natChars, if_neg h0]
    exact natCharsAux_len n n k le_rfl

theorem natChars_len_le_two (n : Nat) (h : n ≤ 99) : (natChars n).length ≤ 2 := by
  have e : (10 : Nat) ^ 2 = 100 := by norm_num
  have hiff := natChars_len_le n 2 (by norm_num)
  rw [e] at hiff
  exact hiff.mpr (by omega)

theorem natChars_len_four (n : Nat) (h1 : 1000 ≤ n) (h2 : n ≤ 9999) :
    (natChars n).length = 4 := by
  have e4 : (10 : Nat) ^ 4 = 10000 := by norm_num
  have e3 : (10 : Nat) ^ 3 = 1000 := by norm_num
  have ha := natChars_len_le n 4 (by norm_num)
  have hb := natChars_len_le n 3 (by norm_num)
  rw [e4] at ha
  rw [e3] at hb
  have hle : (natChars n).length ≤ 4 := ha.mpr (by omega)
  have hnb : ¬ (n < 1000) := by omega
  have hgt : ¬ ((natChars n).length ≤ 3) := fun hc => hnb (hb.mp hc)
  omega

theorem daysInMonth_le_31 (y m : Nat) : daysInMonth y m ≤ 31 := by
  unfold daysInMonth
  split
  · split <;> norm_num
  · split <;> norm_num

theorem takeWhile_all_append (p : Char → Bool) (l1 : List Char) :
    ∀ (c : Char) (l2 : List Char), (∀ x ∈ l1, p x = true) → p c = false →
      (l1 ++ c :: l2).takeWhile p = l1 := by
  induction l1 with
  | nil =>
    intro c l2 _ hc
    simp [List.takeWhile_cons, hc]
  | cons a l ih =>
    intro c l2 hall hc
    have ha := hall a (by simp)
    simp only [List.cons_append, List.takeWhile_cons, ha, if_true]
    rw [ih c l2 (fun x hx => hall x (by simp [hx])) hc]

theorem splitField_append (ds : List Char) (sep : Char) (rest : List Char)
    (hd : ∀ x ∈ ds, x.isDigit = true) (hne : ds ≠ []) (hs : sep.isDigit = false) :
    splitField (ds ++ sep :: rest) sep = some (ds, rest) := by
  have ht : (ds ++ sep :: rest).takeWhile Char.isDigit = ds :=
    takeWhile_all_append Char.isDigit ds sep rest hd hs
  unfold splitField
  rw [ht, List.drop_left]
  simp [hne]

/-- C9, counterexample.  The `strptime` directive `%Y` matches exactly four
digits, while `date_to_str` renders the year unpadded, so a valid datetime
with year 999 serializes to `999-1-1T0:0:0Z` and fails to reparse: the
claimed round-trip for "every datetime value" is false. -/
theorem date_roundtrip_fails_for_year_999 :
    validDate ⟨999, 1, 1, 0, 0, 0⟩ = true ∧
    str_to_date (date_to_str ⟨999, 1, 1, 0, 0, 0⟩) = none := by
  decide

/-- C9, amended.  For every valid datetime whose year has four digits
(1000-9999) — which covers every `expiresAt = now + expires_in` the addon
computes — serializing with `date_to_str` and reparsing with `str_to_date`
yields the original datetime at second resolution: the unpadded fields are
tolerated by the parser's one-or-two-digit field patterns. -/
theorem date_roundtrip_four_digit_year (d : DateTime)
    (hv : validDate d = true) (hy : 1000 ≤ d.year) :
    str_to_date (date_to_str d) = some d := by
  have hv0 := hv
  obtain ⟨y, mo, dy, hh, mi, ss⟩ := d
  simp only [validDate, Bool.and_eq_true, decide_eq_true_eq] at hv
  obtain ⟨⟨⟨⟨⟨⟨⟨⟨hy1, hy2⟩, hmo1⟩, hmo2⟩, hd1⟩, hd2⟩, hh1⟩, hmi1⟩, hs1⟩ := hv
  simp only at hy
  have hdy31 : dy ≤ 31 := le_trans hd2 (daysInMonth_le_31 y mo)
  have e1 := splitField_append (natChars y) '-'
    (natChars mo ++ '-' :: (natChars dy ++ 'T' :: (natChars hh ++ ':' ::
      (natChars mi ++ ':' :: (natChars ss ++ ['Z'])))))
    (natChars_all_digits y) (natChars_ne_nil y) (by decide)
  have e2 := splitField_append (natChars mo) '-'
    (natChars dy ++ 'T' :: (natChars hh ++ ':' ::
      (natChars mi ++ ':' :: (natChars ss ++ ['Z']))))
    (natChars_all_digits mo) (natChars_ne_nil mo) (by decide)
  have e3 := splitField_append (natChars dy) 'T'
    (natChars hh ++ ':' :: (natChars mi ++ ':' :: (natChars ss ++ ['Z'])))
    (natChars_all_digits dy) (natChars_ne_nil dy) (by decide)
  have e4 := splitField_append (natChars hh) ':'
    (natChars mi ++ ':' :: (natChars ss ++ ['Z']))
    (natChars_all_digits hh) (natChars_ne_nil hh) (by decide)
  have e5 := splitField_append (natChars mi) ':' (natChars ss ++ ['Z'])
    (natChars_all_digits mi) (natChars_ne_nil mi) (by decide)
  have e6 := splitField_append (natChars ss) 'Z' []
    (natChars_all_digits ss) (natChars_ne_nil ss) (by decide)
  have hylen : (natChars y).length = 4 := natChars_len_four y hy hy2
  have hmolen : (natChars mo).length ≤ 2 := natChars_len_le_two mo (by omega)
  have hdylen : (natChars dy).length ≤ 2 := natChars_len_le_two dy (by omega)
  have hhlen : (natChars hh).length ≤ 2 := natChars_len_le_two hh (by omega)
  have hmilen : (natChars mi).length ≤ 2 := natChars_len_le_two mi (by omega)
  have hsslen : (natChars ss).length ≤ 2 := natChars_len_le_two ss (by omega)
  simp only [date_to_str, str_to_date, e1, e2, e3, e4, e5, e6, fieldVal_natChars,
    hylen, hmolen, hdylen, hhlen, hmilen, hsslen, hv0]
  simp [hmo1, hmo2, hd1, hdy31, hh1, hmi1, hs1, hv0]
  omega

/-- C9 witness: the amended theorem at a concrete datetime with unpadded
month, day, hour, minute and second fields. -/
theorem date_roundtrip_four_digit_year_witness :
    str_to_date (date_to_str ⟨2026, 1, 5, 3, 7, 9⟩) = some ⟨2026, 1, 5, 3, 7, 9⟩ :=
  date_roundtrip_four_digit_year ⟨2026, 1, 5, 3, 7, 9⟩ (by decide) (by decide)

end Crunchyroll
